import Mathlib

/-!
Shallow embedding of the QC-Inspection capture-and-review client
(src/frontend: the React `App` component).  Each React state hook becomes a
field of `ClientState`; each event handler of the component becomes a pure
function from the pre-state (together with the environment's response to
the HTTP call the handler makes, if any) to the post-state paired with the
list of externally visible effects: HTTP requests issued, operator-facing
alerts, console logging, and camera (re-)initialization.  Handlers are
modelled run-to-completion, so the transient `setLoading(true)` is followed
by the `finally { setLoading(false) }` within one step.
-/

namespace QCInspection

/-- Image payload bytes: a captured frame blob or an uploaded file. -/
abbrev Blob := List Nat

/-- Preview Result returned by `POST /preview`: JSON with `status` and
`image_base64` (further metadata is irrelevant to the client logic). -/
structure PreviewResult where
  status : String
  image_base64 : String
  deriving Repr, DecidableEq

/-- History Record: one row of the `GET /logs` response
(`{Datetime, Model, Filename, Status, Count}`). -/
structure LogRecord where
  Datetime : String
  Model : String
  Filename : String
  Status : String
  Count : Nat
  deriving Repr, DecidableEq

/-- Externally visible effects of one handler invocation. -/
inductive Effect where
  /-- `fetch(BASE_URL/preview, POST multipart)` with parts
  `file` (blob, filename) and `model_name`. -/
  | previewRequest (file : Blob) (filename : String) (model_name : String)
  /-- `fetch(BASE_URL/save, POST multipart)` with parts
  `file` (blob, filename) and `model_name`. -/
  | saveRequest (file : Blob) (filename : String) (model_name : String)
  /-- `fetch(BASE_URL/logs)`. -/
  | logsRequest
  /-- `alert(msg)`: a blocking operator-facing notification. -/
  | alert (msg : String)
  /-- `console.error(err)`: logging only, not operator-facing. -/
  | consoleError
  /-- `navigator.mediaDevices.getUserMedia(...)`: camera access requested. -/
  | getUserMedia
  /-- the granted stream is bound to the video element. -/
  | bindStream
  /-- an invocation of `initializeCamera` (directly, via `setTimeout`, or
  via the `useEffect` hook): camera acquisition is initiated. -/
  | cameraInit
  deriving Repr, DecidableEq

/-- Does an effect show an operator-facing notification? -/
def Effect.isAlert : Effect → Bool
  | .alert _ => true
  | _ => false

/-- Is an effect a `POST /preview` request? -/
def Effect.isPreviewRequest : Effect → Bool
  | .previewRequest _ _ _ => true
  | _ => false

/-- Is an effect a `POST /save` request? -/
def Effect.isSaveRequest : Effect → Bool
  | .saveRequest _ _ _ => true
  | _ => false

/-- Environment outcome of the `fetch` in `processImageBlob`. -/
inductive PreviewOutcome where
  /-- the `fetch` promise rejected (network error). -/
  | netError
  /-- a response arrived with `res.ok = false` (non-success HTTP status). -/
  | httpError
  /-- `res.ok` but `res.json()` rejected (body not JSON). -/
  | badJson
  /-- `res.ok` and the body decoded to a Preview Result. -/
  | success (r : PreviewResult)
  deriving Repr, DecidableEq

/-- Does a preview outcome take the `catch` branch of `processImageBlob`? -/
def PreviewOutcome.failing : PreviewOutcome → Bool
  | .success _ => false
  | _ => true

/-- Environment outcome of the `fetch` in `confirmSave`
(`res.json()` is never called there). -/
inductive SaveOutcome where
  /-- the `fetch` promise rejected (network error). -/
  | netError
  /-- a response arrived; `ok` is the value of `res.ok`. -/
  | response (ok : Bool)
  deriving Repr, DecidableEq

/-- Environment outcome of the `fetch` in `fetchHistoryLogs`:
`ok` is the value of `res.ok` (which the code never reads), and
`body = none` means `res.json()` rejected. -/
inductive LogsOutcome where
  | netError
  | response (ok : Bool) (body : Option (List LogRecord))
  deriving Repr, DecidableEq

/-- Environment outcome of the `getUserMedia` permission prompt. -/
inductive CameraOutcome where
  | granted
  | denied
  deriving Repr, DecidableEq

/-- The React state hooks of `App`, plus one specification-only ghost field.

`previewOrigin` is instrumentation with no behavioural effect: it records
the `(file, model_name)` pair of the preview request issued by the
`processImageBlob` call that set the current `previewData`, and is cleared
exactly where `previewData` is cleared.  It lets invariants relate the save
request to the preview request that produced the displayed result. -/
structure ClientState where
  loading : Bool
  previewData : Option PreviewResult
  capturedBlob : Option Blob
  showHistory : Bool
  logs : List LogRecord
  selectedModel : String
  fileInputValue : String
  previewOrigin : Option (Blob × String)
  deriving Repr, DecidableEq

/-- The initial hook values of `App`
(`useState(false)`, `useState(null)`, ..., `useState("688-1")`). -/
def initState : ClientState :=
  { loading := false
    previewData := none
    capturedBlob := none
    showHistory := false
    logs := []
    selectedModel := "688-1"
    fileInputValue := ""
    previewOrigin := none }

/-- `initializeCamera`: when the Camera API is missing, alert and return;
otherwise request the camera; on grant bind the stream, on denial
(`catch`) only `console.error` it. -/
def initializeCamera (apiSupported : Bool) (outcome : CameraOutcome) :
    List Effect :=
  if apiSupported = false then
    [Effect.alert "Camera API not supported."]
  else
    match outcome with
    | .granted => [Effect.getUserMedia, Effect.bindStream]
    | .denied => [Effect.getUserMedia, Effect.consoleError]

/-- `processImageBlob(blob)`: store the blob in `capturedBlob`, POST it to
`/preview` as `file` (filename `scan.jpg`) with `model_name`; on success
store the decoded result in `previewData` (and, ghost, its origin); on any
failure alert `Connection Failed.`; finally clear `loading`. -/
def processImageBlob (s : ClientState) (blob : Blob) (resp : PreviewOutcome) :
    ClientState × List Effect :=
  let s1 : ClientState := { s with loading := true, capturedBlob := some blob }
  let req : Effect := Effect.previewRequest blob "scan.jpg" s1.selectedModel
  match resp with
  | .success r =>
      ({ s1 with previewData := some r
                 previewOrigin := some (blob, s1.selectedModel)
                 loading := false }, [req])
  | _ =>
      ({ s1 with loading := false }, [req, Effect.alert "Connection Failed."])

/-- `captureFrame`: if the video element is not mounted, return; otherwise
draw the current frame to the canvas, encode it (`canvas.toBlob`, the
resulting bytes are `frame`) and hand it to `processImageBlob`. -/
def captureFrame (s : ClientState) (video : Option Blob)
    (resp : PreviewOutcome) : ClientState × List Effect :=
  match video with
  | none => (s, [])
  | some frame => processImageBlob s frame resp

/-- `handleFileUpload(e)`: take `e.target.files[0]`; if a file is selected,
hand it to `processImageBlob`, else do nothing. -/
def handleFileUpload (s : ClientState) (files : List Blob)
    (resp : PreviewOutcome) : ClientState × List Effect :=
  match files with
  | [] => (s, [])
  | file :: _ => processImageBlob s file resp

/-- `resetScanner`: clear `previewData` and `capturedBlob` (and the ghost
origin), clear the file input, and schedule `initializeCamera` via
`setTimeout(initializeCamera, 100)`. -/
def resetScanner (s : ClientState) : ClientState × List Effect :=
  ({ s with previewData := none
            capturedBlob := none
            previewOrigin := none
            fileInputValue := "" },
   [Effect.cameraInit])

/-- `confirmSave`: if no `capturedBlob` is stored, return without any call;
otherwise POST the stored blob to `/save` as `file` (filename `final.jpg`)
with `model_name`; on `res.ok` run `resetScanner`, on a non-ok response
alert `Failed to save.`, on a rejected fetch alert `Network Error.`;
finally clear `loading`. -/
def confirmSave (s : ClientState) (resp : SaveOutcome) :
    ClientState × List Effect :=
  match s.capturedBlob with
  | none => (s, [])
  | some blob =>
    let s1 : ClientState := { s with loading := true }
    let req : Effect := Effect.saveRequest blob "final.jpg" s1.selectedModel
    match resp with
    | .response true =>
        let reset := resetScanner s1
        ({ reset.1 with loading := false }, req :: reset.2)
    | .response false =>
        ({ s1 with loading := false }, [req, Effect.alert "Failed to save."])
    | .netError =>
        ({ s1 with loading := false }, [req, Effect.alert "Network Error."])

/-- `fetchHistoryLogs`: GET `/logs`; `res.ok` is never inspected, so any
arrived response goes straight to `res.json()`; on decoded data set `logs`
and enter the history view; if the fetch or the JSON decoding rejects,
alert `Failed to load logs.`; finally clear `loading`. -/
def fetchHistoryLogs (s : ClientState) (resp : LogsOutcome) :
    ClientState × List Effect :=
  let s1 : ClientState := { s with loading := true }
  match resp with
  | .netError =>
      ({ s1 with loading := false },
       [Effect.logsRequest, Effect.alert "Failed to load logs."])
  | .response _ none =>
      ({ s1 with loading := false },
       [Effect.logsRequest, Effect.alert "Failed to load logs."])
  | .response _ (some data) =>
      ({ s1 with logs := data, showHistory := true, loading := false },
       [Effect.logsRequest])

/-- `toggleViewMode`: from the history view, leave it and schedule
`initializeCamera`; from the scanner view, run `fetchHistoryLogs`. -/
def toggleViewMode (s : ClientState) (resp : LogsOutcome) :
    ClientState × List Effect :=
  if s.showHistory then
    ({ s with showHistory := false }, [Effect.cameraInit])
  else
    fetchHistoryLogs s resp

/-- The `useEffect` hook on `[showHistory, previewData]`: it invokes
`initializeCamera` exactly when `!showHistory && !previewData`. -/
def cameraEffect (s : ClientState) : List Effect :=
  if !s.showHistory && s.previewData.isNone then [Effect.cameraInit] else []

/-- Operator events, each carrying the environment response its handler
consumes.  `capture` carries the encoded frame (the video element is
mounted whenever the Capture button is rendered). -/
inductive Event where
  | capture (frame : Blob) (resp : PreviewOutcome)
  | upload (files : List Blob) (resp : PreviewOutcome)
  | confirm (resp : SaveOutcome)
  | retry
  | toggleView (resp : LogsOutcome)
  | selectModel (m : String)
  deriving Repr, DecidableEq

/-- Which events the rendered UI can emit in a given state: Capture,
Upload and the model dropdown are rendered only in the scanner view with
no Preview Result; Confirm and Retry only in the scanner view with a
Preview Result; the History/Scan toggle is always rendered. -/
def enabled (s : ClientState) : Event → Bool
  | .capture _ _ => !s.showHistory && s.previewData.isNone
  | .upload _ _ => !s.showHistory && s.previewData.isNone
  | .confirm _ => !s.showHistory && s.previewData.isSome
  | .retry => !s.showHistory && s.previewData.isSome
  | .toggleView _ => true
  | .selectModel _ => !s.showHistory && s.previewData.isNone

/-- Dispatch one event to its handler. -/
def handle (s : ClientState) : Event → ClientState × List Effect
  | .capture frame resp => captureFrame s (some frame) resp
  | .upload files resp => handleFileUpload s files resp
  | .confirm resp => confirmSave s resp
  | .retry => resetScanner s
  | .toggleView resp => toggleViewMode s resp
  | .selectModel m => ({ s with selectedModel := m }, [])

/-- States the client can be in between handler invocations. -/
inductive Reachable : ClientState → Prop where
  | init : Reachable initState
  | next {s : ClientState} {e : Event} :
      Reachable s → enabled s e = true → Reachable (handle s e).1

/-- REVIEW-mode invariant: whenever a Preview Result is held, the stored
buffer and the current model are exactly the `(file, model_name)` pair of
the preview request that produced the result. -/
def stateInv (s : ClientState) : Prop :=
  ∀ r, s.previewData = some r →
    ∃ b, s.capturedBlob = some b ∧ s.previewOrigin = some (b, s.selectedModel)

theorem reachable_stateInv {s : ClientState} (h : Reachable s) : stateInv s := by
  induction h with
  | init =>
      intro r hr
      simp [initState] at hr
  | next hs hen ih =>
      rename_i t e
      intro r hr
      cases e with
      | capture frame resp =>
          simp [enabled] at hen
          cases resp with
          | success pr =>
              refine ⟨frame, ?_, ?_⟩ <;>
                simp [handle, captureFrame, processImageBlob]
          | netError =>
              simp [handle, captureFrame, processImageBlob, hen.2] at hr
          | httpError =>
              simp [handle, captureFrame, processImageBlob, hen.2] at hr
          | badJson =>
              simp [handle, captureFrame, processImageBlob, hen.2] at hr
      | upload files resp =>
          simp [enabled] at hen
          cases files with
          | nil => exact ih r (by simpa [handle, handleFileUpload] using hr)
          | cons f rest =>
              cases resp with
              | success pr =>
                  refine ⟨f, ?_, ?_⟩ <;>
                    simp [handle, handleFileUpload, processImageBlob]
              | netError =>
                  simp [handle, handleFileUpload, processImageBlob, hen.2] at hr
              | httpError =>
                  simp [handle, handleFileUpload, processImageBlob, hen.2] at hr
              | badJson =>
                  simp [handle, handleFileUpload, processImageBlob, hen.2] at hr
      | confirm resp =>
          cases hc : t.capturedBlob with
          | none =>
              obtain ⟨b, hb, ho⟩ := ih r (by simpa [handle, confirmSave, hc] using hr)
              simp [hc] at hb
          | some blob =>
              cases resp with
              | netError =>
                  obtain ⟨b, hb, ho⟩ :=
                    ih r (by simpa [handle, confirmSave, hc] using hr)
                  have hbb : blob = b := by rw [hc] at hb; exact Option.some_inj.mp hb
                  subst hbb
                  exact ⟨blob, by simp [handle, confirmSave, hc, ho]⟩
              | response ok =>
                  cases ok with
                  | true =>
                      simp [handle, confirmSave, hc, resetScanner] at hr
                  | false =>
                      obtain ⟨b, hb, ho⟩ :=
                        ih r (by simpa [handle, confirmSave, hc] using hr)
                      have hbb : blob = b := by rw [hc] at hb; exact Option.some_inj.mp hb
                      subst hbb
                      exact ⟨blob, by simp [handle, confirmSave, hc, ho]⟩
      | retry =>
          simp [handle, resetScanner] at hr
      | toggleView resp =>
          cases hsh : t.showHistory with
          | true =>
              obtain ⟨b, hb, ho⟩ :=
                ih r (by simpa [handle, toggleViewMode, hsh] using hr)
              exact ⟨b, by simp [handle, toggleViewMode, hsh, hb, ho]⟩
          | false =>
              cases resp with
              | netError =>
                  obtain ⟨b, hb, ho⟩ :=
                    ih r (by simpa [handle, toggleViewMode, hsh, fetchHistoryLogs] using hr)
                  exact ⟨b, by simp [handle, toggleViewMode, hsh, fetchHistoryLogs, hb, ho]⟩
              | response ok body =>
                  cases body with
                  | none =>
                      obtain ⟨b, hb, ho⟩ :=
                        ih r (by simpa [handle, toggleViewMode, hsh, fetchHistoryLogs] using hr)
                      exact ⟨b, by simp [handle, toggleViewMode, hsh, fetchHistoryLogs, hb, ho]⟩
                  | some data =>
                      obtain ⟨b, hb, ho⟩ :=
                        ih r (by simpa [handle, toggleViewMode, hsh, fetchHistoryLogs] using hr)
                      exact ⟨b, by simp [handle, toggleViewMode, hsh, fetchHistoryLogs, hb, ho]⟩
      | selectModel m =>
          simp [enabled] at hen
          simp [handle, hen.2] at hr

/-- A concrete REVIEW-mode state: the initial state after one captured
frame whose preview call succeeded. -/
def reviewState : ClientState :=
  (handle initState
    (.capture [1, 2] (.success { status := "fail", image_base64 := "abc" }))).1

/-- C1 (counterexample): a failing preview call does not clear the
captured-image buffer — after `processImageBlob` fails with HTTP 500 on
the initial state with blob `[7]`, the buffer still holds `[7]`. -/
theorem preview_failure_keeps_buffer :
    (processImageBlob initState [7] .httpError).1.capturedBlob = some [7] ∧
    (processImageBlob initState [7] .httpError).1.capturedBlob ≠ none := by
  decide

/-- C1 (amended): for every failing preview call from a state holding no
Preview Result, the client shows the `Connection Failed.` notification and
afterwards still holds no Preview Result (back to LIVE, never entering
REVIEW), but the captured-image buffer retains the blob instead of being
cleared. -/
theorem preview_failure_returns_live (s : ClientState) (blob : Blob)
    (resp : PreviewOutcome) (hfail : resp.failing = true) :
    (processImageBlob { s with previewData := none } blob resp).1.previewData
        = none ∧
    (processImageBlob { s with previewData := none } blob resp).1.capturedBlob
        = some blob ∧
    Effect.alert "Connection Failed."
        ∈ (processImageBlob { s with previewData := none } blob resp).2 := by
  cases resp with
  | success r => simp [PreviewOutcome.failing] at hfail
  | netError => refine ⟨?_, ?_, ?_⟩ <;> simp [processImageBlob]
  | httpError => refine ⟨?_, ?_, ?_⟩ <;> simp [processImageBlob]
  | badJson => refine ⟨?_, ?_, ?_⟩ <;> simp [processImageBlob]

theorem preview_failure_returns_live_witness :
    PreviewOutcome.netError.failing = true ∧
    ((processImageBlob { initState with previewData := none } [3]
        .netError).1.previewData = none ∧
     (processImageBlob { initState with previewData := none } [3]
        .netError).1.capturedBlob = some [3] ∧
     Effect.alert "Connection Failed."
        ∈ (processImageBlob { initState with previewData := none } [3]
            .netError).2) :=
  ⟨by decide, preview_failure_returns_live initState [3] .netError (by decide)⟩

/-- C2 (counterexample): with the Camera API available and camera
permission denied, `initializeCamera` only logs to the console; no
operator-facing alert is produced. -/
theorem camera_denied_only_logged :
    initializeCamera true .denied = [Effect.getUserMedia, Effect.consoleError] ∧
    (initializeCamera true .denied).all (fun e => !e.isAlert) = true := by
  decide

/-- C2 (amended): on entry to LIVE the client requests camera access; a
missing Camera API produces a blocking alert, but a denied camera
permission is only logged to the console (`console.error`) and surfaces no
operator-facing notification. -/
theorem camera_entry_behavior :
    (∀ o, initializeCamera false o = [Effect.alert "Camera API not supported."]) ∧
    initializeCamera true .granted = [Effect.getUserMedia, Effect.bindStream] ∧
    initializeCamera true .denied = [Effect.getUserMedia, Effect.consoleError] ∧
    (initializeCamera true .denied).all (fun e => !e.isAlert) = true := by
  refine ⟨fun o => ?_, by decide, by decide, by decide⟩
  cases o <;> decide

/-- C3 (counterexample): the logs fetch never checks the HTTP status — a
non-success response whose body parses as JSON is treated as data: no
alert is shown and the client enters the HISTORY view. -/
theorem logs_nonsuccess_treated_as_data :
    (fetchHistoryLogs initState (.response false (some []))).2
        = [Effect.logsRequest] ∧
    ((fetchHistoryLogs initState (.response false (some []))).2).all
        (fun e => !e.isAlert) = true ∧
    (fetchHistoryLogs initState (.response false (some []))).1.showHistory
        = true := by
  decide

/-- C3 (amended): preview and save surface a blocking notification on any
network error or non-success HTTP response; the logs fetch surfaces one
only when the request or the JSON decoding throws — a non-success logs
response with a JSON body is treated as data and enters HISTORY without
any notification. -/
theorem request_failure_policy :
    (∀ s : ClientState, ∀ blob : Blob,
      Effect.alert "Connection Failed."
          ∈ (processImageBlob s blob .httpError).2 ∧
      Effect.alert "Connection Failed."
          ∈ (processImageBlob s blob .netError).2) ∧
    (∀ s : ClientState, ∀ b : Blob,
      Effect.alert "Failed to save."
          ∈ (confirmSave { s with capturedBlob := some b } (.response false)).2 ∧
      Effect.alert "Network Error."
          ∈ (confirmSave { s with capturedBlob := some b } .netError).2) ∧
    (∀ s : ClientState,
      Effect.alert "Failed to load logs." ∈ (fetchHistoryLogs s .netError).2) ∧
    (∀ s : ClientState, ∀ ok : Bool,
      Effect.alert "Failed to load logs."
          ∈ (fetchHistoryLogs s (.response ok none)).2) ∧
    (∀ s : ClientState, ∀ ok : Bool, ∀ data : List LogRecord,
      ((fetchHistoryLogs s (.response ok (some data))).2).all
          (fun e => !e.isAlert) = true ∧
      (fetchHistoryLogs s (.response ok (some data))).1.showHistory = true ∧
      (fetchHistoryLogs s (.response ok (some data))).1.logs = data) := by
  refine ⟨fun s blob => ⟨?_, ?_⟩, fun s b => ⟨?_, ?_⟩, fun s => ?_,
    fun s ok => ?_, fun s ok data => ⟨?_, ?_, ?_⟩⟩ <;>
    simp [processImageBlob, confirmSave, fetchHistoryLogs, Effect.isAlert]

/-- C4: a successful preview call issues exactly the preview request
`(blob, scan.jpg, selectedModel)` and records it as the origin of the
stored result; and in every reachable state holding a Preview Result, a
confirm action issues exactly one save request, whose `file` bytes and
`model_name` are exactly those of the preview request that produced the
displayed result. -/
theorem confirm_reuses_preview_request :
    (∀ s : ClientState, ∀ blob : Blob, ∀ r : PreviewResult,
      (processImageBlob s blob (.success r)).2
          = [Effect.previewRequest blob "scan.jpg" s.selectedModel] ∧
      (processImageBlob s blob (.success r)).1.previewOrigin
          = some (blob, s.selectedModel)) ∧
    (∀ s : ClientState, Reachable s → ∀ r, s.previewData = some r →
      ∀ resp : SaveOutcome,
        ∃ b, s.previewOrigin = some (b, s.selectedModel) ∧
          ((handle s (.confirm resp)).2).filter Effect.isSaveRequest
              = [Effect.saveRequest b "final.jpg" s.selectedModel]) := by
  constructor
  · intro s blob r
    exact ⟨rfl, rfl⟩
  · intro s hs r hr resp
    obtain ⟨b, hb, ho⟩ := reachable_stateInv hs r hr
    refine ⟨b, ho, ?_⟩
    cases resp with
    | netError =>
        simp [handle, confirmSave, hb, Effect.isSaveRequest]
    | response ok =>
        cases ok with
        | true =>
            simp [handle, confirmSave, hb, resetScanner, Effect.isSaveRequest]
        | false =>
            simp [handle, confirmSave, hb, Effect.isSaveRequest]

theorem confirm_reuses_preview_request_witness :
    ∃ b, reviewState.previewOrigin = some (b, reviewState.selectedModel) ∧
      ((handle reviewState (.confirm .netError)).2).filter Effect.isSaveRequest
          = [Effect.saveRequest b "final.jpg" reviewState.selectedModel] :=
  confirm_reuses_preview_request.2 reviewState
    (Reachable.next Reachable.init (by decide))
    { status := "fail", image_base64 := "abc" } (by decide) .netError

/-- C5: a capture with a mounted video element and a file upload with a
selected file each issue exactly one preview request, carrying the image
as `file` (filename `scan.jpg`) and the selected model as `model_name`;
an upload with no file selected issues nothing. -/
theorem capture_upload_single_preview :
    (∀ s : ClientState, ∀ frame : Blob, ∀ resp : PreviewOutcome,
      ((captureFrame s (some frame) resp).2).filter Effect.isPreviewRequest
          = [Effect.previewRequest frame "scan.jpg" s.selectedModel]) ∧
    (∀ s : ClientState, ∀ file : Blob, ∀ rest : List Blob,
      ∀ resp : PreviewOutcome,
      ((handleFileUpload s (file :: rest) resp).2).filter Effect.isPreviewRequest
          = [Effect.previewRequest file "scan.jpg" s.selectedModel]) ∧
    (∀ s : ClientState, ∀ resp : PreviewOutcome,
      handleFileUpload s [] resp = (s, [])) := by
  refine ⟨fun s frame resp => ?_, fun s file rest resp => ?_, fun s resp => rfl⟩ <;>
    cases resp <;>
      simp [captureFrame, handleFileUpload, processImageBlob,
        Effect.isPreviewRequest, Effect.isAlert]

/-- C6: a failing save call (network error or non-success response) shows
a failure notification and leaves the stored Preview Result and the
captured-image buffer unchanged: the client remains in REVIEW. -/
theorem save_failure_keeps_review :
    ∀ s : ClientState, ∀ b : Blob,
      ((confirmSave { s with capturedBlob := some b } .netError).1.previewData
          = s.previewData ∧
       (confirmSave { s with capturedBlob := some b } .netError).1.capturedBlob
          = some b ∧
       Effect.alert "Network Error."
          ∈ (confirmSave { s with capturedBlob := some b } .netError).2) ∧
      ((confirmSave { s with capturedBlob := some b }
          (.response false)).1.previewData = s.previewData ∧
       (confirmSave { s with capturedBlob := some b }
          (.response false)).1.capturedBlob = some b ∧
       Effect.alert "Failed to save."
          ∈ (confirmSave { s with capturedBlob := some b } (.response false)).2) := by
  intro s b
  refine ⟨⟨?_, ?_, ?_⟩, ⟨?_, ?_, ?_⟩⟩ <;> simp [confirmSave]

/-- C7: retry (`resetScanner`) always clears the Preview Result and the
captured-image buffer and re-initiates camera acquisition; confirm with no
stored buffer does nothing, and in particular a confirm after a retry
issues no save request. -/
theorem retry_clears_buffer :
    (∀ s : ClientState,
      (resetScanner s).1.previewData = none ∧
      (resetScanner s).1.capturedBlob = none ∧
      Effect.cameraInit ∈ (resetScanner s).2) ∧
    (∀ s : ClientState, ∀ resp : SaveOutcome,
      confirmSave { s with capturedBlob := none } resp
        = ({ s with capturedBlob := none }, [])) ∧
    (∀ s : ClientState, ∀ resp : SaveOutcome,
      ((confirmSave (resetScanner s).1 resp).2).filter Effect.isSaveRequest
        = []) := by
  refine ⟨fun s => ⟨rfl, rfl, ?_⟩, fun s resp => rfl, fun s resp => rfl⟩
  simp [resetScanner]

/-- C8: a successful save call clears both the captured-image buffer and
the Preview Result and re-initiates camera acquisition, returning the
client to LIVE. -/
theorem save_success_resets :
    ∀ s : ClientState, ∀ b : Blob,
      (confirmSave { s with capturedBlob := some b }
          (.response true)).1.previewData = none ∧
      (confirmSave { s with capturedBlob := some b }
          (.response true)).1.capturedBlob = none ∧
      Effect.cameraInit
          ∈ (confirmSave { s with capturedBlob := some b } (.response true)).2 := by
  intro s b
  refine ⟨rfl, rfl, ?_⟩
  simp [confirmSave, resetScanner]

/-- A concrete reachable HISTORY state that still holds a Preview Result:
from `reviewState` the always-rendered History button toggles to the
history view while `previewData` stays set. -/
def historyWithPreview : ClientState :=
  (handle reviewState (.toggleView (.response true (some [])))).1

/-- C9 (counterexample): camera acquisition IS initiated while a Preview
Result is held — from REVIEW the operator can toggle to HISTORY (the
header button is always rendered, and `previewData` survives the toggle),
and toggling back runs `setTimeout(initializeCamera, 100)` although the
Preview Result is still held afterwards. -/
theorem camera_init_while_preview_held :
    Reachable historyWithPreview ∧
    historyWithPreview.previewData
        = some { status := "fail", image_base64 := "abc" } ∧
    enabled historyWithPreview (.toggleView .netError) = true ∧
    Effect.cameraInit ∈ (handle historyWithPreview (.toggleView .netError)).2 ∧
    (handle historyWithPreview (.toggleView .netError)).1.previewData
        = some { status := "fail", image_base64 := "abc" } := by
  refine ⟨?_, by decide, by decide, by decide, by decide⟩
  exact Reachable.next (Reachable.next Reachable.init (by decide)) (by decide)

/-- C9 (amended): the state holds at most one Preview Result at a time;
while one is held the `useEffect` hook initiates no camera acquisition;
leaving preview mode by retry or by a successful confirm re-initiates
camera acquisition — but the HISTORY toggle-back path re-initiates camera
acquisition unconditionally, even while a Preview Result is still held
(and it leaves the held result in place). -/
theorem single_preview_suspends_hook_camera :
    (∀ s : ClientState, ∀ r1 r2 : PreviewResult,
      s.previewData = some r1 → s.previewData = some r2 → r1 = r2) ∧
    (∀ s : ClientState, ∀ r : PreviewResult,
      s.previewData = some r → cameraEffect s = []) ∧
    (∀ s : ClientState, Effect.cameraInit ∈ (handle s .retry).2) ∧
    (∀ s : ClientState, ∀ b : Blob,
      Effect.cameraInit
          ∈ (handle { s with capturedBlob := some b }
              (.confirm (.response true))).2) ∧
    (∀ s : ClientState, ∀ resp : LogsOutcome, s.showHistory = true →
      Effect.cameraInit ∈ (handle s (.toggleView resp)).2 ∧
      (handle s (.toggleView resp)).1.previewData = s.previewData) := by
  refine ⟨fun s r1 r2 h1 h2 => ?_, fun s r h => ?_, fun s => ?_, fun s b => ?_,
    fun s resp hsh => ⟨?_, ?_⟩⟩
  · rw [h1] at h2
    exact Option.some_inj.mp h2
  · simp [cameraEffect, h]
  · simp [handle, resetScanner]
  · simp [handle, confirmSave, resetScanner]
  · simp [handle, toggleViewMode, hsh]
  · simp [handle, toggleViewMode, hsh]

theorem single_preview_suspends_hook_camera_witness :
    cameraEffect reviewState = [] ∧
    (Effect.cameraInit
        ∈ (handle historyWithPreview (.toggleView (.response true none))).2 ∧
     (handle historyWithPreview
        (.toggleView (.response true none))).1.previewData
          = historyWithPreview.previewData) :=
  ⟨single_preview_suspends_hook_camera.2.1 reviewState
      { status := "fail", image_base64 := "abc" } (by decide),
   single_preview_suspends_hook_camera.2.2.2.2 historyWithPreview
      (.response true none) (by decide)⟩

/-- C10: when the logs fetch throws (request not sent or body not JSON),
the client does not enter HISTORY (`showHistory` unchanged), the stored
logs list is unchanged, the loading flag ends up cleared, and a failure
notification is shown. -/
theorem logs_failure_preserves_view :
    ∀ s : ClientState,
      ((fetchHistoryLogs s .netError).1.showHistory = s.showHistory ∧
       (fetchHistoryLogs s .netError).1.logs = s.logs ∧
       (fetchHistoryLogs s .netError).1.loading = false ∧
       Effect.alert "Failed to load logs." ∈ (fetchHistoryLogs s .netError).2) ∧
      (∀ ok : Bool,
       (fetchHistoryLogs s (.response ok none)).1.showHistory = s.showHistory ∧
       (fetchHistoryLogs s (.response ok none)).1.logs = s.logs ∧
       (fetchHistoryLogs s (.response ok none)).1.loading = false ∧
       Effect.alert "Failed to load logs."
          ∈ (fetchHistoryLogs s (.response ok none)).2) := by
  intro s
  refine ⟨⟨rfl, rfl, rfl, ?_⟩, fun ok => ⟨rfl, rfl, rfl, ?_⟩⟩ <;>
    simp [fetchHistoryLogs]

end QCInspection
